import Mathlib

/-!
Verification of the runtime bootstrap script (console shim + GPU bridge).

The script sets up two globals:
  * `console` with `log`/`error`, both of which serialize their arguments via
    `JSON.stringify`, join them with a single space, and forward one line to
    the host print primitive `core.print(message, isError)`;
  * `gpu`, a bridge object forwarding to host ops
    (`op_gpu_create_window`, `op_gpu_create_shader_module`,
    `op_gpu_create_render_pipeline`, `op_gpu_draw_frame`) and maintaining the
    callback registry `__gpuCallbacks` with slots `setup`, `draw`, `resize`.

Modelling conventions:
  * JavaScript values logged through the console are embedded as the inductive
    `JSValue`. Lean inductives are finite trees, so a value containing a
    circular reference (on which `JSON.stringify` throws a `TypeError`) is
    marked by the dedicated constructor `vcyclic`.
  * JavaScript numbers are IEEE doubles; the claims checked here only concern
    forwarding values unmodified and the literal decimal representation of
    integral values, so numbers are modelled as `Int`.
  * A call that may throw is embedded as `Except Unit _` (the error payload is
    irrelevant to the claims).
  * Handler functions stored in the callback slots are opaque to the bridge;
    they are modelled by an arbitrary type parameter `H`.
  * Host operations observable from the script are recorded as a trace of
    `HostCall` values, and the host's replies to the two handle-producing
    operations are supplied as function parameters.
-/

/-- Embedding of the JavaScript values the console shim may be asked to log.
`vundefined` covers `undefined` (and functions, which `JSON.stringify` also
maps to JS `undefined`); `vcyclic` marks a value containing a circular
reference, on which `JSON.stringify` throws. -/
inductive JSValue where
  | vstr : String → JSValue
  | vnum : Int → JSValue
  | vbool : Bool → JSValue
  | vnull : JSValue
  | vundefined : JSValue
  | varr : List JSValue → JSValue
  | vobj : List (String × JSValue) → JSValue
  | vcyclic : JSValue

/-- Hexadecimal digit for JSON `\uXXXX` escapes. -/
def hexDigit (n : Nat) : Char :=
  if n < 10 then Char.ofNat (48 + n) else Char.ofNat (87 + n)

/-- Four-digit hexadecimal rendering used by JSON control-character escapes. -/
def hex4 (n : Nat) : String :=
  String.mk [hexDigit (n / 4096 % 16), hexDigit (n / 256 % 16),
             hexDigit (n / 16 % 16), hexDigit (n % 16)]

/-- JSON escaping of a single character, as performed by `JSON.stringify`
inside string literals. -/
def jsonEscapeChar (c : Char) : String :=
  if c = '"' then "\\\""
  else if c = '\\' then "\\\\"
  else if c = '\n' then "\\n"
  else if c = '\t' then "\\t"
  else if c = '\r' then "\\r"
  else if c = '\x08' then "\\b"
  else if c = '\x0c' then "\\f"
  else if c.toNat < 32 then "\\u" ++ hex4 c.toNat
  else String.singleton c

/-- `JSON.stringify` rendering of a string: double quotes around the escaped
character sequence. -/
def jsonQuote (s : String) : String :=
  "\"" ++ String.join (s.data.map jsonEscapeChar) ++ "\""

mutual

/-- Embedding of `JSON.stringify(v)` as called by `argsToMessage`.
`.ok (some s)` is a returned string, `.ok none` is a returned JS `undefined`
(top-level `undefined`/function), `.error ()` is the `TypeError` thrown on a
circular structure. -/
def jsonStr : JSValue → Except Unit (Option String)
  | .vstr s => .ok (some (jsonQuote s))
  | .vnum n => .ok (some (toString n))
  | .vbool true => .ok (some "true")
  | .vbool false => .ok (some "false")
  | .vnull => .ok (some "null")
  | .vundefined => .ok none
  | .vcyclic => .error ()
  | .varr xs =>
      match jsonStrArr xs with
      | .error e => .error e
      | .ok parts => .ok (some ("[" ++ String.intercalate "," parts ++ "]"))
  | .vobj fs =>
      match jsonStrObj fs with
      | .error e => .error e
      | .ok parts => .ok (some ("\x7b" ++ String.intercalate "," parts ++ "\x7d"))

/-- Array elements under `JSON.stringify`: an element that stringifies to JS
`undefined` is rendered as `null`. -/
def jsonStrArr : List JSValue → Except Unit (List String)
  | [] => .ok []
  | x :: xs =>
      match jsonStr x with
      | .error e => .error e
      | .ok r =>
          match jsonStrArr xs with
          | .error e => .error e
          | .ok rest => .ok (r.getD "null" :: rest)

/-- Object members under `JSON.stringify`: a member whose value stringifies to
JS `undefined` is dropped. -/
def jsonStrObj : List (String × JSValue) → Except Unit (List String)
  | [] => .ok []
  | (k, v) :: fs =>
      match jsonStr v with
      | .error e => .error e
      | .ok r =>
          match jsonStrObj fs with
          | .error e => .error e
          | .ok rest =>
              .ok (match r with
                   | some s => (jsonQuote k ++ ":" ++ s) :: rest
                   | none => rest)

end

/-- The element list built by `args.map((arg) => JSON.stringify(arg))` before
`join(" ")`: a `JSON.stringify` result of JS `undefined` is rendered by
`Array.prototype.join` as the empty string, and a thrown error propagates out
of the whole call. -/
def msgParts : List JSValue → Except Unit (List String)
  | [] => .ok []
  | a :: rest =>
      match jsonStr a with
      | .error e => .error e
      | .ok r =>
          match msgParts rest with
          | .error e => .error e
          | .ok parts => .ok (r.getD "" :: parts)

/-- Embedding of
`function argsToMessage(...args) \x7b return args.map((arg) => JSON.stringify(arg)).join(" "); \x7d`. -/
def argsToMessage (args : List JSValue) : Except Unit String :=
  match msgParts args with
  | .error e => .error e
  | .ok parts => .ok (String.intercalate " " parts)

/-- One observable call from the script into the host: the four
`core.ops.op_gpu_*` operations and the `core.print` primitive, each carrying
its arguments in source order. -/
inductive HostCall where
  | op_gpu_create_window : String → Int → Int → HostCall
  | op_gpu_create_shader_module : String → HostCall
  | op_gpu_create_render_pipeline : Int → String → String → HostCall
  | op_gpu_draw_frame : Int → Int → Int → Int → Int → Int → Int → HostCall
  | print : String → Bool → HostCall
deriving DecidableEq

/-- The callback registry `globalThis.__gpuCallbacks`: three named slots, each
holding at most one handler of the opaque handler type `H`. -/
structure Callbacks (H : Type) where
  setup : Option H
  draw : Option H
  resize : Option H
deriving DecidableEq

/-- The registry's value at environment startup:
`\x7b setup: null, draw: null, resize: null \x7d`. -/
def __gpuCallbacks (H : Type) : Callbacks H :=
  { setup := none, draw := none, resize := none }

/-- Observable outcome of one script-level call: its return value, the
callback registry afterwards, and the host calls it performed, in order. -/
structure Step (H : Type) (α : Type) where
  ret : α
  after : Callbacks H
  calls : List HostCall

/-- `console.log`: joins the serialized arguments and forwards one line
`"[out]: " ++ message ++ "\n"` to `core.print` with the error flag `false`.
A serialization error thrown by `argsToMessage` propagates (no print). -/
def console.log (args : List JSValue) (cbs : Callbacks H) :
    Except Unit (Step H Unit) :=
  match argsToMessage args with
  | .error e => .error e
  | .ok m => .ok ⟨(), cbs, [.print ("[out]: " ++ m ++ "\n") false]⟩

/-- `console.error`: identical to `console.log` but with the `"[err]: "`
prefix and the error flag `true`. -/
def console.error (args : List JSValue) (cbs : Callbacks H) :
    Except Unit (Step H Unit) :=
  match argsToMessage args with
  | .error e => .error e
  | .ok m => .ok ⟨(), cbs, [.print ("[err]: " ++ m ++ "\n") true]⟩

/-- `gpu.createWindow(title, width, height)`: forwards the three arguments to
`core.ops.op_gpu_create_window` and returns nothing. -/
def gpu.createWindow (title : String) (width height : Int) (cbs : Callbacks H) :
    Step H Unit :=
  ⟨(), cbs, [.op_gpu_create_window title width height]⟩

/-- `gpu.onSetup(fn)`: writes `fn` into the `setup` slot of
`__gpuCallbacks`; no host call. -/
def gpu.onSetup (fn : H) (cbs : Callbacks H) : Step H Unit :=
  ⟨(), { cbs with setup := some fn }, []⟩

/-- `gpu.onDraw(fn)`: writes `fn` into the `draw` slot of `__gpuCallbacks`;
no host call. -/
def gpu.onDraw (fn : H) (cbs : Callbacks H) : Step H Unit :=
  ⟨(), { cbs with draw := some fn }, []⟩

/-- `gpu.onResize(fn)`: writes `fn` into the `resize` slot of
`__gpuCallbacks`; no host call. -/
def gpu.onResize (fn : H) (cbs : Callbacks H) : Step H Unit :=
  ⟨(), { cbs with resize := some fn }, []⟩

/-- `gpu.createShaderModule(code)`: forwards `code` to
`core.ops.op_gpu_create_shader_module` and returns the host's result as-is;
the host's reply (a handle, or a thrown error of type `E`) is supplied by the
`host` parameter. -/
def gpu.createShaderModule (host : String → Except E Int) (code : String)
    (cbs : Callbacks H) : Step H (Except E Int) :=
  ⟨host code, cbs, [.op_gpu_create_shader_module code]⟩

/-- `gpu.createRenderPipeline(shaderModuleId, vertexEntry, fragmentEntry)`:
forwards its three arguments to `core.ops.op_gpu_create_render_pipeline` and
returns the host's result as-is. -/
def gpu.createRenderPipeline (host : Int → String → String → Except E Int)
    (shaderModuleId : Int) (vertexEntry fragmentEntry : String)
    (cbs : Callbacks H) : Step H (Except E Int) :=
  ⟨host shaderModuleId vertexEntry fragmentEntry, cbs,
   [.op_gpu_create_render_pipeline shaderModuleId vertexEntry fragmentEntry]⟩

/-- `gpu.drawFrame(pipelineId, r, g, b, a, vertexCount, instanceCount)`:
forwards all seven arguments to `core.ops.op_gpu_draw_frame` in source order
and returns nothing. -/
def gpu.drawFrame (pipelineId r g b a vertexCount instanceCount : Int)
    (cbs : Callbacks H) : Step H Unit :=
  ⟨(), cbs,
   [.op_gpu_draw_frame pipelineId r g b a vertexCount instanceCount]⟩

/-- Outcome of one dispatch of a callback slot: either the registered handler
was invoked, or the dispatch was skipped. There is no error outcome. -/
inductive DispatchResult (H : Type) where
  | invoked : H → DispatchResult H
  | skipped : DispatchResult H
deriving DecidableEq

/-- Modelled from the spec: the host-side dispatcher that invokes the three
callback slots lives in the Rust host, outside the shown source. Per the
spec's dispatcher surface, it invokes the handler currently registered in the
slot, and "if a slot is unset when the host would invoke it, the dispatcher
must silently skip the call (no error)". The total return type
`DispatchResult` has no error outcome. -/
def dispatchSlot (slot : Option H) : DispatchResult H :=
  match slot with
  | some f => .invoked f
  | none => .skipped

/-- `true` exactly on the primitive serializable values named by the spec's
canonicalization clause: strings, numbers, booleans and `null`. -/
def isPrim : JSValue → Bool
  | .vstr _ => true
  | .vnum _ => true
  | .vbool _ => true
  | .vnull => true
  | _ => false

/-- Stated from the spec's words, for comparison with the source embedding:
the "canonical structured serialization" of a primitive value — strings
quoted (with standard JSON escaping), numbers, booleans and `null` in their
literal representation. Non-primitive values are outside the primitive-typed
claims and default to the empty string. -/
def canonicalSerialize : JSValue → String
  | .vstr s => jsonQuote s
  | .vnum n => toString n
  | .vbool true => "true"
  | .vbool false => "false"
  | .vnull => "null"
  | _ => ""

theorem jsonStr_prim (a : JSValue) (h : isPrim a = true) :
    jsonStr a = .ok (some (canonicalSerialize a)) := by
  cases a with
  | vstr s => rfl
  | vnum n => rfl
  | vbool b => cases b <;> rfl
  | vnull => rfl
  | vundefined => simp [isPrim] at h
  | vcyclic => simp [isPrim] at h
  | varr xs => simp [isPrim] at h
  | vobj fs => simp [isPrim] at h

theorem msgParts_prim (args : List JSValue) (h : ∀ a ∈ args, isPrim a = true) :
    msgParts args = .ok (args.map canonicalSerialize) := by
  induction args with
  | nil => rfl
  | cons a rest ih =>
    have ha : isPrim a = true := h a (List.mem_cons_self a rest)
    have hrest : ∀ x ∈ rest, isPrim x = true :=
      fun x hx => h x (List.mem_cons_of_mem a hx)
    simp [msgParts, jsonStr_prim a ha, ih hrest]

theorem argsToMessage_prim (args : List JSValue)
    (h : ∀ a ∈ args, isPrim a = true) :
    argsToMessage args =
      .ok (String.intercalate " " (args.map canonicalSerialize)) := by
  simp [argsToMessage, msgParts_prim args h]

/-- C1 counterexample: for `console.log("a")`, the message forwarded to the
host print primitive is `"[out]: \"a\"\n"`, which is not equal to the
space-joined canonical serialization `"\"a\""` of the arguments: the code
wraps the serialization in a channel prefix and a trailing newline, so the
claim's equality fails as stated. -/
theorem C1_counterexample :
    console.log [JSValue.vstr "a"] (__gpuCallbacks Unit) =
      .ok ⟨(), __gpuCallbacks Unit, [HostCall.print "[out]: \"a\"\n" false]⟩ ∧
    argsToMessage [JSValue.vstr "a"] = .ok "\"a\"" ∧
    "[out]: \"a\"\n" ≠ "\"a\"" :=
  ⟨rfl, rfl, by decide⟩

/-- C1 (amended): for every argument list of primitive values (strings,
numbers, booleans, null), `console.log` forwards to the host print primitive
exactly the space-joined canonical serialization of the arguments, prefixed
with `"[out]: "` and terminated by a newline, with the error flag `false`;
`console.error` forwards the same serialization with the `"[err]: "` prefix
and the error flag `true`. -/
theorem C1_console_forwarding (H : Type) (cbs : Callbacks H)
    (args : List JSValue) (h : ∀ a ∈ args, isPrim a = true) :
    console.log args cbs =
      .ok ⟨(), cbs, [HostCall.print
        ("[out]: " ++ String.intercalate " " (args.map canonicalSerialize) ++ "\n")
        false]⟩ ∧
    console.error args cbs =
      .ok ⟨(), cbs, [HostCall.print
        ("[err]: " ++ String.intercalate " " (args.map canonicalSerialize) ++ "\n")
        true]⟩ := by
  have hm := argsToMessage_prim args h
  exact ⟨by simp [console.log, hm], by simp [console.error, hm]⟩

/-- C1 witness: the amended statement instantiated at the concrete call
`console.log("x", 3, true, null)` in the startup environment. -/
theorem C1_console_forwarding_witness :
    console.log [JSValue.vstr "x", JSValue.vnum 3, JSValue.vbool true,
        JSValue.vnull] (__gpuCallbacks Nat) =
      .ok ⟨(), __gpuCallbacks Nat, [HostCall.print
        ("[out]: " ++ String.intercalate " "
          ([JSValue.vstr "x", JSValue.vnum 3, JSValue.vbool true,
            JSValue.vnull].map canonicalSerialize) ++ "\n") false]⟩ ∧
    console.error [JSValue.vstr "x", JSValue.vnum 3, JSValue.vbool true,
        JSValue.vnull] (__gpuCallbacks Nat) =
      .ok ⟨(), __gpuCallbacks Nat, [HostCall.print
        ("[err]: " ++ String.intercalate " "
          ([JSValue.vstr "x", JSValue.vnum 3, JSValue.vbool true,
            JSValue.vnull].map canonicalSerialize) ++ "\n") true]⟩ :=
  C1_console_forwarding Nat (__gpuCallbacks Nat)
    [JSValue.vstr "x", JSValue.vnum 3, JSValue.vbool true, JSValue.vnull]
    (by decide)

/-- C2: the code's behavior at the failing input. `argsToMessage` calls
`JSON.stringify` with no exception handling, so logging a value with a
circular reference propagates the thrown `TypeError` out of the
`console.log` / `console.error` call: the call aborts, no placeholder is
substituted and no line is forwarded to the host print primitive —
contradicting the claim (and the spec's stated intent). -/
theorem C2_cyclic_throws :
    console.log [JSValue.vcyclic] (__gpuCallbacks Unit) = .error () ∧
    console.error [JSValue.vcyclic] (__gpuCallbacks Unit) = .error () :=
  ⟨rfl, rfl⟩

/-- C3: last-write-wins in every callback slot — registering `f` and then
`g` (with `f ≠ g`) in the same slot via the slot's registration operation
leaves exactly `g` active there, and the slot no longer holds `f`. -/
theorem C3_last_write_wins (H : Type) (cbs : Callbacks H) (f g : H)
    (hfg : f ≠ g) :
    ((gpu.onSetup g (gpu.onSetup f cbs).after).after.setup = some g ∧
     (gpu.onSetup g (gpu.onSetup f cbs).after).after.setup ≠ some f) ∧
    ((gpu.onDraw g (gpu.onDraw f cbs).after).after.draw = some g ∧
     (gpu.onDraw g (gpu.onDraw f cbs).after).after.draw ≠ some f) ∧
    ((gpu.onResize g (gpu.onResize f cbs).after).after.resize = some g ∧
     (gpu.onResize g (gpu.onResize f cbs).after).after.resize ≠ some f) := by
  have hgf : ¬ some g = some f := by
    intro hh
    exact hfg (Option.some.inj hh).symm
  exact ⟨⟨rfl, hgf⟩, ⟨rfl, hgf⟩, ⟨rfl, hgf⟩⟩

/-- C3 witness: the concrete handlers `0` then `1` registered in each slot of
the startup registry. -/
theorem C3_last_write_wins_witness :
    ((gpu.onSetup 1 (gpu.onSetup 0 (__gpuCallbacks Nat)).after).after.setup =
        some 1 ∧
     (gpu.onSetup 1 (gpu.onSetup 0 (__gpuCallbacks Nat)).after).after.setup ≠
        some 0) ∧
    ((gpu.onDraw 1 (gpu.onDraw 0 (__gpuCallbacks Nat)).after).after.draw =
        some 1 ∧
     (gpu.onDraw 1 (gpu.onDraw 0 (__gpuCallbacks Nat)).after).after.draw ≠
        some 0) ∧
    ((gpu.onResize 1 (gpu.onResize 0 (__gpuCallbacks Nat)).after).after.resize =
        some 1 ∧
     (gpu.onResize 1 (gpu.onResize 0 (__gpuCallbacks Nat)).after).after.resize ≠
        some 0) :=
  C3_last_write_wins Nat (__gpuCallbacks Nat) 0 1 (by decide)

/-- C4: every `gpu.drawFrame(pipelineId, r, g, b, a, vertexCount,
instanceCount)` call performs exactly one host call — one
`op_gpu_draw_frame` submission carrying the pipeline handle, the four color
channels, the vertex count and the instance count, in that order and
unmodified — returns nothing, and leaves the callback registry unchanged. -/
theorem C4_drawFrame_forwards (H : Type) (cbs : Callbacks H)
    (pipelineId r g b a vertexCount instanceCount : Int) :
    gpu.drawFrame pipelineId r g b a vertexCount instanceCount cbs =
      ⟨(), cbs, [HostCall.op_gpu_draw_frame pipelineId r g b a vertexCount
        instanceCount]⟩ :=
  rfl

/-- C5: `gpu.createShaderModule` and `gpu.createRenderPipeline` each invoke
their host operation exactly once with exactly the given arguments, and
return the host's result unchanged — the returned value IS the host's reply,
so a host-produced handle comes back as-is and a host-thrown error propagates
as-is, never swallowed, altered or retried. -/
theorem C5_creation_forwards (H E : Type) (cbs : Callbacks H)
    (hostShader : String → Except E Int)
    (hostPipeline : Int → String → String → Except E Int)
    (code : String) (shaderModuleId : Int) (vertexEntry fragmentEntry : String) :
    ((gpu.createShaderModule hostShader code cbs).calls =
        [HostCall.op_gpu_create_shader_module code] ∧
     (gpu.createShaderModule hostShader code cbs).ret = hostShader code) ∧
    ((gpu.createRenderPipeline hostPipeline shaderModuleId vertexEntry
        fragmentEntry cbs).calls =
        [HostCall.op_gpu_create_render_pipeline shaderModuleId vertexEntry
          fragmentEntry] ∧
     (gpu.createRenderPipeline hostPipeline shaderModuleId vertexEntry
        fragmentEntry cbs).ret =
        hostPipeline shaderModuleId vertexEntry fragmentEntry) :=
  ⟨⟨rfl, rfl⟩, ⟨rfl, rfl⟩⟩

/-- C6: at environment startup all three slots of `__gpuCallbacks` are empty,
and no operation other than the three registration operations writes to any
slot: `createWindow`, `createShaderModule`, `createRenderPipeline` and
`drawFrame` return the registry unchanged, and each console operation either
propagates the serialization error or returns the registry unchanged
alongside its single print call. -/
theorem C6_slots_invariant (H : Type) :
    ((__gpuCallbacks H).setup = none ∧ (__gpuCallbacks H).draw = none ∧
     (__gpuCallbacks H).resize = none) ∧
    (∀ (title : String) (width height : Int) (cbs : Callbacks H),
       (gpu.createWindow title width height cbs).after = cbs) ∧
    (∀ (E : Type) (host : String → Except E Int) (code : String)
       (cbs : Callbacks H),
       (gpu.createShaderModule host code cbs).after = cbs) ∧
    (∀ (E : Type) (host : Int → String → String → Except E Int)
       (shaderModuleId : Int) (vertexEntry fragmentEntry : String)
       (cbs : Callbacks H),
       (gpu.createRenderPipeline host shaderModuleId vertexEntry fragmentEntry
         cbs).after = cbs) ∧
    (∀ (pipelineId r g b a vertexCount instanceCount : Int)
       (cbs : Callbacks H),
       (gpu.drawFrame pipelineId r g b a vertexCount instanceCount cbs).after =
         cbs) ∧
    (∀ (args : List JSValue) (cbs : Callbacks H),
       console.log args cbs = (argsToMessage args).map fun m =>
         ⟨(), cbs, [HostCall.print ("[out]: " ++ m ++ "\n") false]⟩) ∧
    (∀ (args : List JSValue) (cbs : Callbacks H),
       console.error args cbs = (argsToMessage args).map fun m =>
         ⟨(), cbs, [HostCall.print ("[err]: " ++ m ++ "\n") true]⟩) := by
  refine ⟨⟨rfl, rfl, rfl⟩, fun _ _ _ _ => rfl, fun _ _ _ _ => rfl,
    fun _ _ _ _ _ _ => rfl, fun _ _ _ _ _ _ _ _ => rfl,
    fun args cbs => ?_, fun args cbs => ?_⟩ <;>
  · cases hm : argsToMessage args <;>
      simp [console.log, console.error, Except.map, hm]

/-- C7: every `gpu.createWindow(title, width, height)` call forwards exactly
the three arguments, unmodified and in order, to the host window-creation
operation `op_gpu_create_window`, returns no value, and leaves the callback
registry unchanged. -/
theorem C7_createWindow_forwards (H : Type) (cbs : Callbacks H)
    (title : String) (width height : Int) :
    gpu.createWindow title width height cbs =
      ⟨(), cbs, [HostCall.op_gpu_create_window title width height]⟩ :=
  rfl

/-- C8: dispatching an unset callback slot makes no handler call and produces
no error — `dispatchSlot` is total with no error outcome and maps the empty
slot to `skipped`; a registered handler, by contrast, is invoked. -/
theorem C8_unset_slot_skipped (H : Type) :
    dispatchSlot (H := H) none = DispatchResult.skipped ∧
    ∀ f : H, dispatchSlot (some f) = DispatchResult.invoked f :=
  ⟨rfl, fun _ => rfl⟩

/-- C9: each registration operation writes only its own slot — it sets its
slot to the given handler, leaves the other two slots exactly as they were,
and performs no host call and no console output (its host-call trace, which
would also record any `print`, is empty). -/
theorem C9_registration_frame (H : Type) (f : H) (cbs : Callbacks H) :
    ((gpu.onSetup f cbs).after.setup = some f ∧
     (gpu.onSetup f cbs).after.draw = cbs.draw ∧
     (gpu.onSetup f cbs).after.resize = cbs.resize ∧
     (gpu.onSetup f cbs).calls = []) ∧
    ((gpu.onDraw f cbs).after.draw = some f ∧
     (gpu.onDraw f cbs).after.setup = cbs.setup ∧
     (gpu.onDraw f cbs).after.resize = cbs.resize ∧
     (gpu.onDraw f cbs).calls = []) ∧
    ((gpu.onResize f cbs).after.resize = some f ∧
     (gpu.onResize f cbs).after.setup = cbs.setup ∧
     (gpu.onResize f cbs).after.draw = cbs.draw ∧
     (gpu.onResize f cbs).calls = []) :=
  ⟨⟨rfl, rfl, rfl, rfl⟩, ⟨rfl, rfl, rfl, rfl⟩, ⟨rfl, rfl, rfl, rfl⟩⟩

/-- C10: the console operations are deterministic — two invocations with
equal argument lists forward exactly the same host calls (the same message
string and the same error flag), regardless of any other state, here
represented by callback registries over arbitrary handler types. -/
theorem C10_console_deterministic (H K : Type) (args args2 : List JSValue)
    (h : args = args2) (cbs : Callbacks H) (cbs2 : Callbacks K) :
    (console.log args cbs).map Step.calls =
      (console.log args2 cbs2).map Step.calls ∧
    (console.error args cbs).map Step.calls =
      (console.error args2 cbs2).map Step.calls := by
  subst h
  constructor <;> cases hm : argsToMessage args <;>
    simp [console.log, console.error, Except.map, hm]

/-- C10 witness: the deterministic-forwarding statement at the concrete call
`console.log(1)` / `console.error(1)` against two different registries. -/
theorem C10_console_deterministic_witness :
    (console.log [JSValue.vnum 1] (__gpuCallbacks Nat)).map Step.calls =
      (console.log [JSValue.vnum 1] (__gpuCallbacks Bool)).map Step.calls ∧
    (console.error [JSValue.vnum 1] (__gpuCallbacks Nat)).map Step.calls =
      (console.error [JSValue.vnum 1] (__gpuCallbacks Bool)).map Step.calls :=
  C10_console_deterministic Nat Bool [JSValue.vnum 1] [JSValue.vnum 1] rfl
    (__gpuCallbacks Nat) (__gpuCallbacks Bool)
